import Mathlib

set_option maxRecDepth 100000

/-!
Verification of the Clerk OAuth provider and its example server
(`src/server/oauth/providers/clerk.ts` and
`examples/server/oauth/clerk/src/server.ts`).

The TypeScript source is shallowly embedded: JavaScript string/array
values that may be `undefined` become `Option`, JavaScript truthiness on
strings is the explicit predicate `truthyStr`, thrown errors become
explicit error constructors, and the two external effectful primitives
(the jose JWT library and the Node `fetch`/`Buffer`/`JSON` builtins) are
modelled as explicit oracle fields of an environment record, so that
every function here is executable and the observable effects (warnings,
network calls) are part of the returned value.
-/

namespace ClerkSpec

/-- JavaScript truthiness for a `string | undefined` value: `undefined`
and the empty string are falsy, every other string is truthy. -/
def truthyStr : Option String → Bool
  | none => false
  | some s => s != ""

/-- JavaScript `token.split(".")` on a literal "." separator,
written as structural recursion over the character list so it evaluates
in the kernel. `"".split(".") = [""]` and `"a.".split(".") = ["a", ""]`,
as in JavaScript. -/
def splitDotAux : List Char → List Char → List String
  | [], acc => [String.mk acc.reverse]
  | c :: cs, acc =>
    if c = '.' then String.mk acc.reverse :: splitDotAux cs []
    else splitDotAux cs (c :: acc)

/-- JavaScript `s.split(".")` on a Lean `String`. -/
def splitDot (s : String) : List String := splitDotAux s.data []

/-- JavaScript `token.startsWith("oat_")` from the example server. -/
def startsWithOat (token : String) : Bool :=
  "oat_".data.isPrefixOf token.data

/-- JavaScript `array.join(sep)`. -/
def joinWith (sep : String) : List String → String
  | [] => ""
  | [s] => s
  | s :: rest => s ++ sep ++ joinWith sep rest

/-- The raw JWT claims payload (`Record<string, unknown>` in the source),
restricted to the claim names the Clerk provider actually reads, each
optional because a JSON payload may omit any of them. -/
structure RawClaims where
  iss : Option String := none
  exp : Option Nat := none
  sub : Option String := none
  email : Option String := none
  email_verified : Option Bool := none
  first_name : Option String := none
  last_name : Option String := none
  image_url : Option String := none
  picture : Option String := none
  org_id : Option String := none
  org_role : Option String := none
  org_permissions : Option (List String) := none
  roles : Option (List String) := none
  permissions : Option (List String) := none
deriving DecidableEq

/-- Configuration `ClerkOAuthConfig` from `types.ts` as used by `clerk.ts`: the tenant
domain and the optional `verifyJwt` boolean (absent means the production
default, full verification). -/
structure ClerkOAuthConfig where
  domain : String
  verifyJwt : Option Bool
deriving DecidableEq

/-- Field `this.issuer`, set in the constructor: `https://` prepended to the
configured domain. -/
def issuerOf (cfg : ClerkOAuthConfig) : String :=
  "https://" ++ cfg.domain

/-- Oracles for the external primitives `verifyToken` calls: the
composition `JSON.parse(Buffer.from(seg, "base64url").toString("utf8"))`
applied to a payload segment (`none` when the segment is not decodable,
in which case `JSON.parse` throws), whether the token's signature
verifies against the issuer's remote JWKS key set, and the current time
in seconds used for the `exp` check. -/
structure JoseEnv where
  decodeBase64UrlJson : String → Option RawClaims
  sigValid : String → Bool
  now : Nat

/-- Modelled from the spec: the jose library's `jwtVerify(token, jwks,
presetIssuer)`, whose source is the external `jose` dependency, not part of
this repository. Per its documented contract it rejects tokens that are
not three-segment compact JWS, whose payload cannot be parsed, whose
signature fails against the key set, whose `iss` claim is not exactly the
expected issuer string, or whose `exp` claim (when present) is not in the
future. -/
def jwtVerify (env : JoseEnv) (token : String) (expectedIssuer : String) :
    Except String RawClaims :=
  let parts := splitDot token
  if parts.length ≠ 3 then
    .error "JWSInvalid: Invalid Compact JWS"
  else
    match env.decodeBase64UrlJson (parts.getD 1 "") with
    | none => .error "JWTInvalid: JWT Claims Set could not be parsed"
    | some claims =>
      if env.sigValid token = false then
        .error "JWSSignatureVerificationFailed: signature verification failed"
      else if claims.iss ≠ some expectedIssuer then
        .error "JWTClaimValidationFailed: unexpected iss claim value"
      else
        match claims.exp with
        | some e =>
          if e ≤ env.now then
            .error "JWTExpired: exp claim timestamp check failed"
          else
            .ok claims
        | none => .ok claims

/-- Outcome of `ClerkOAuthProvider.verifyToken`: whether the
`console.warn` pair at the top of the disabled branch ran, whether the
call consulted the network (the remote JWKS set of `getJWKS`), and the
returned payload or thrown error. -/
inductive VerifyResult where
  | ok (payload : RawClaims)
  | err (message : String)
deriving DecidableEq

/-- The observable outcome of one `verifyToken` invocation. -/
structure VerifyOutcome where
  warned : Bool
  network : Bool
  result : VerifyResult
deriving DecidableEq

/-- The `verifyJwt === false` branch of `verifyToken`: warn, split the
token on ".", throw `Invalid JWT format` unless there are exactly three
segments, then decode the payload segment (a `JSON.parse` failure
propagates as a thrown `SyntaxError`) and return it without any network
call. -/
def decodeUnverified (env : JoseEnv) (token : String) : VerifyOutcome :=
  let parts := splitDot token
  if parts.length ≠ 3 then
    ⟨true, false, .err "Invalid JWT format"⟩
  else
    match env.decodeBase64UrlJson (parts.getD 1 "") with
    | none => ⟨true, false, .err "SyntaxError: Unexpected token in JSON"⟩
    | some payload => ⟨true, false, .ok payload⟩

/-- The full-verification branch of `verifyToken`: `jwtVerify` against
the remote JWKS with the configured issuer, any failure rethrown as
`Clerk JWT verification failed: ...`. -/
def verifyFull (env : JoseEnv) (cfg : ClerkOAuthConfig) (token : String) :
    VerifyOutcome :=
  match jwtVerify env token (issuerOf cfg) with
  | .ok claims => ⟨false, true, .ok claims⟩
  | .error e => ⟨false, true, .err ("Clerk JWT verification failed: " ++ e)⟩

/-- Method `ClerkOAuthProvider.verifyToken`: the decode-without-verification
branch is taken exactly when `config.verifyJwt === false`. -/
def verifyToken (env : JoseEnv) (cfg : ClerkOAuthConfig) (token : String) :
    VerifyOutcome :=
  if cfg.verifyJwt = some false then decodeUnverified env token
  else verifyFull env cfg token

/-- The normalized `UserInfo` record returned by
`ClerkOAuthProvider.getUserInfo`. `userId` is `Option` because the source
casts `payload.sub as string` without checking presence. -/
structure UserInfo where
  userId : Option String
  email : Option String
  name : Option String
  picture : Option String
  roles : List String
  permissions : List String
  org_id : Option String
  org_role : Option String
  org_permissions : List String
  email_verified : Option Bool
  first_name : Option String
  last_name : Option String
deriving DecidableEq

/-- Method `ClerkOAuthProvider.getUserInfo`, the claim normalizer. JavaScript
`x || y` on strings is modelled with `truthyStr`, `filter(Boolean)` as
dropping `undefined` and empty strings, and `(xs as string[]) || []` as
`Option.getD []` (an array, even empty, is truthy in JavaScript). -/
def getUserInfo (payload : RawClaims) : UserInfo :=
  let firstName := payload.first_name
  let lastName := payload.last_name
  let fullName :=
    if truthyStr firstName || truthyStr lastName then
      some (joinWith " "
        (([firstName, lastName].filterMap id).filter (fun s => s != "")))
    else none
  let picture :=
    if truthyStr payload.image_url then payload.image_url else payload.picture
  let orgId := payload.org_id
  let orgRole := payload.org_role
  let orgPermissions := payload.org_permissions.getD []
  let roles :=
    if truthyStr orgRole then [orgRole.getD ""] else payload.roles.getD []
  let permissions :=
    if orgPermissions.length > 0 then orgPermissions
    else payload.permissions.getD []
  { userId := payload.sub
    email := payload.email
    name := fullName
    picture := picture
    roles := roles
    permissions := permissions
    org_id := orgId
    org_role := orgRole
    org_permissions := orgPermissions
    email_verified := payload.email_verified
    first_name := firstName
    last_name := lastName }

/-! The `get-clerk-user-profile` tool handler of the example server
(`examples/server/oauth/clerk/src/server.ts`). -/

/-- A single outbound `fetch` call: its URL and the credential placed in
the `Authorization: Bearer ...` header. -/
structure FetchCall where
  url : String
  bearer : String
deriving DecidableEq

/-- A `fetch` response as the handler reads it: `res.ok`, `res.status`,
`res.statusText`, and the parsed `res.json()` body of type `α`. -/
structure FetchResponse (α : Type) where
  ok : Bool
  status : Nat
  statusText : String
  json : α

/-- Nested `verification` object of a Clerk Backend API email address. -/
structure Verification where
  status : Option String
deriving DecidableEq

/-- One entry of `user.email_addresses` in a Clerk Backend API user. -/
structure EmailAddress where
  email_address : Option String
  verification : Option Verification
deriving DecidableEq

/-- The fields of a Clerk Backend API user object that the handler
reads. `created_at` and `last_sign_in_at` are millisecond timestamps. -/
structure ClerkUser where
  id : Option String := none
  email_addresses : List EmailAddress := []
  first_name : Option String := none
  last_name : Option String := none
  username : Option String := none
  image_url : Option String := none
  created_at : Option Int := none
  last_sign_in_at : Option Int := none
  public_metadata : Option String := none
deriving DecidableEq

/-- The object literal the handler builds from a Clerk Backend API user
on the administrative path. -/
structure ProfileOut where
  id : Option String
  email : Option String
  email_verified : Bool
  first_name : Option String
  last_name : Option String
  name : Option String
  username : Option String
  picture : Option String
  created_at : Option String
  last_sign_in : Option String
  public_metadata : Option String
deriving DecidableEq

/-- The `object({...})` body of the administrative branch:
optional-chained email fields, `filter(Boolean).join(" ") || undefined`
for the name, and `x ? new Date(x).toISOString() : undefined` for the
timestamps (`toIso` models `Date..toISOString`; `0` is falsy). -/
def profileFromClerkUser (toIso : Int → String) (user : ClerkUser) :
    ProfileOut :=
  let firstEmail := user.email_addresses.head?
  let nameJoined :=
    joinWith " "
      (([user.first_name, user.last_name].filterMap id).filter
        (fun s => s != ""))
  { id := user.id
    email := firstEmail.bind (fun a => a.email_address)
    email_verified :=
      ((firstEmail.bind (fun a => a.verification)).bind
        (fun v => v.status)) == some "verified"
    first_name := user.first_name
    last_name := user.last_name
    name := if nameJoined = "" then none else some nameJoined
    username := user.username
    picture := user.image_url
    created_at :=
      match user.created_at with
      | some t => if t ≠ 0 then some (toIso t) else none
      | none => none
    last_sign_in :=
      match user.last_sign_in_at with
      | some t => if t ≠ 0 then some (toIso t) else none
      | none => none
    public_metadata := user.public_metadata }

/-- The payload of a successful tool result: the raw userinfo JSON
passed through on the opaque path, or the rebuilt profile object on the
administrative path. -/
inductive ToolPayload where
  | userinfoJson (claims : RawClaims)
  | profile (p : ProfileOut)
deriving DecidableEq

/-- Modelled from the spec: the `error`/`object` helpers imported from
`mcp-use/server`, whose source is outside this repository. `error(msg)`
builds a structured failure result returned as a value (not a raised
fault) and `object(x)` a structured success result. -/
inductive ToolResult where
  | err (message : String)
  | obj (payload : ToolPayload)
deriving DecidableEq

/-- The environment the handler reads: the two `process.env` variables
(`Option`, with an empty string falsy exactly as in the source's `!x`
checks), the two `fetch` endpoints as oracles, and `Date..toISOString`. -/
structure HandlerEnv where
  clerkDomain : Option String
  clerkSecretKey : Option String
  fetchUserinfo : FetchCall → FetchResponse RawClaims
  fetchAdmin : FetchCall → FetchResponse ClerkUser
  toIso : Int → String

/-- The per-request context fields the handler reads:
`ctx.auth.accessToken` and `ctx.auth.user.userId` (the latter `Option`
since it comes from the unchecked `payload.sub` of `getUserInfo`). -/
structure ToolCtx where
  accessToken : String
  userId : Option String
deriving DecidableEq

/-- JavaScript template interpolation of a `string | undefined` value:
an absent value prints as the literal text `undefined`. -/
def jsTemplate : Option String → String
  | some s => s
  | none => "undefined"

/-- The URL/credential of the opaque-path userinfo call. -/
def userinfoCall (domain token : String) : FetchCall :=
  ⟨"https://" ++ domain ++ "/oauth/userinfo", token⟩

/-- The URL/credential of the administrative Clerk Backend API call. -/
def adminUserCall (userId : Option String) (secretKey : String) : FetchCall :=
  ⟨"https://api.clerk.com/v1/users/" ++ jsTemplate userId, secretKey⟩

/-- The exact message of the missing-secret-credential failure. -/
def secretKeyMissingMessage : String :=
  "CLERK_SECRET_KEY is not set. Add it to .env to fetch full user profiles in Inspector/browser flows. Real MCP clients (Cursor, Claude Code) receive oat_ tokens which work without a secret key."

/-- The `get-clerk-user-profile` tool handler, returning its tool result
together with the list of `fetch` calls it performed. The surrounding
`try`/`catch` of the source never fires here because every step of the
embedded body is total. -/
def getClerkUserProfile (env : HandlerEnv) (ctx : ToolCtx) :
    ToolResult × List FetchCall :=
  if truthyStr env.clerkDomain = false then
    (.err "MCP_USE_OAUTH_CLERK_DOMAIN is not set", [])
  else
    let domain := env.clerkDomain.getD ""
    let token := ctx.accessToken
    if startsWithOat token then
      let call := userinfoCall domain token
      let res := env.fetchUserinfo call
      if res.ok = false then
        (.err ("Clerk userinfo failed: " ++ toString res.status ++ " "
          ++ res.statusText), [call])
      else
        (.obj (.userinfoJson res.json), [call])
    else if truthyStr env.clerkSecretKey = false then
      (.err secretKeyMissingMessage, [])
    else
      let secretKey := env.clerkSecretKey.getD ""
      let call := adminUserCall ctx.userId secretKey
      let res := env.fetchAdmin call
      if res.ok = false then
        (.err ("Clerk API request failed: " ++ toString res.status ++ " "
          ++ res.statusText), [call])
      else
        (.obj (.profile (profileFromClerkUser env.toIso res.json)), [call])

/-- The two resolution paths of the dual-path profile lookup. -/
inductive ResolvePath where
  | userinfo
  | admin
deriving DecidableEq

/-- The dispatch rule as the specification words it, for comparison with
the code: a token with exactly three dot-separated segments is
structured and goes to the administrative lookup, anything else is
opaque and goes to the direct userinfo call. -/
def claimedShapeDispatch (token : String) : ResolvePath :=
  if (splitDot token).length = 3 then .admin else .userinfo

/-- The dispatch the handler actually performs, read off its branch
condition: the `oat_` textual sigil selects the userinfo path, every
other token the administrative path. -/
def codeDispatch (token : String) : ResolvePath :=
  if startsWithOat token then .userinfo else .admin

/-! Concrete fixtures for evaluating the definitions. -/

/-- A payload with every claim absent. -/
def emptyClaims : RawClaims := {}

/-- A correctly issued payload whose `iss` differs from the configured
issuer only by a trailing slash. -/
def claimsBadIss : RawClaims :=
  { iss := some "https://example.clerk.accounts.dev/"
    sub := some "user_1" }

/-- A payload that verifies but carries no `sub` claim. -/
def noSubClaims : RawClaims :=
  { iss := some "https://example.clerk.accounts.dev"
    exp := some 2000
    email := some "a@b.com" }

/-- The payload of the specification's normalization scenario. -/
def scenarioClaims : RawClaims :=
  { sub := some "user_2"
    first_name := some "Jane"
    last_name := some "Doe"
    org_id := some "org_9"
    org_role := some "admin"
    org_permissions := some ["read"] }

/-- A payload in which both organization-scoped and generic
role/permission claims exist, the organization-scoped ones falsy/empty. -/
def bothKindsClaims : RawClaims :=
  { sub := some "user_3"
    org_role := some ""
    roles := some ["generic_role"]
    org_permissions := some []
    permissions := some ["generic_perm"] }

/-- A payload with an empty-string first name and a set last name. -/
def emptyFirstNameClaims : RawClaims :=
  { sub := some "user_4"
    first_name := some ""
    last_name := some "Doe" }

/-- A concrete jose environment: the payload segments "payload", "e" and
"p" decode to the fixtures above, every signature verifies, and the
clock reads 1000. -/
def envFix : JoseEnv :=
  { decodeBase64UrlJson := fun s =>
      if s = "payload" then some claimsBadIss
      else if s = "e" then some noSubClaims
      else if s = "p" then some scenarioClaims
      else none
    sigValid := fun _ => true
    now := 1000 }

/-- Configuration with verification explicitly enabled. -/
def cfgEnabled : ClerkOAuthConfig :=
  { domain := "example.clerk.accounts.dev", verifyJwt := some true }

/-- A fresh configuration where the toggle is unset. -/
def cfgFresh : ClerkOAuthConfig :=
  { domain := "example.clerk.accounts.dev", verifyJwt := none }

/-- Configuration with verification explicitly disabled. -/
def cfgDisabled : ClerkOAuthConfig :=
  { domain := "example.clerk.accounts.dev", verifyJwt := some false }

/-- An empty Clerk Backend API user. -/
def emptyClerkUser : ClerkUser := {}

/-- A handler environment with domain and secret configured and both
endpoints answering 200. -/
def envH : HandlerEnv :=
  { clerkDomain := some "example.clerk.accounts.dev"
    clerkSecretKey := some "sk_test_123"
    fetchUserinfo := fun _ => ⟨true, 200, "OK", scenarioClaims⟩
    fetchAdmin := fun _ => ⟨true, 200, "OK", emptyClerkUser⟩
    toIso := fun _ => "1970-01-01T00:00:00.000Z" }

/-- A handler environment whose userinfo endpoint answers 401. -/
def envH401 : HandlerEnv :=
  { clerkDomain := some "example.clerk.accounts.dev"
    clerkSecretKey := some "sk_test_123"
    fetchUserinfo := fun _ => ⟨false, 401, "Unauthorized", emptyClaims⟩
    fetchAdmin := fun _ => ⟨false, 401, "Unauthorized", emptyClerkUser⟩
    toIso := fun _ => "1970-01-01T00:00:00.000Z" }

/-- A handler environment with no secret credential configured. -/
def envHNoSecret : HandlerEnv :=
  { clerkDomain := some "example.clerk.accounts.dev"
    clerkSecretKey := none
    fetchUserinfo := fun _ => ⟨true, 200, "OK", scenarioClaims⟩
    fetchAdmin := fun _ => ⟨true, 200, "OK", emptyClerkUser⟩
    toIso := fun _ => "1970-01-01T00:00:00.000Z" }

/-- A request context carrying an opaque `oat_` token. -/
def ctxOpaque : ToolCtx := ⟨"oat_abc", some "user_1"⟩

/-- A request context carrying a three-segment structured token. -/
def ctxJwt : ToolCtx := ⟨"h.p.s", some "user_1"⟩

/-- A request context carrying a single-segment token without the
`oat_` sigil. -/
def ctxPlain : ToolCtx := ⟨"abc", some "user_1"⟩

/-- The display-name rule as the claim words it: the space-separated
concatenation of the first-name and last-name claims, omitting whichever
is absent, entirely absent when both are absent. -/
def claimedDisplayName (fn ln : Option String) : Option String :=
  match fn, ln with
  | none, none => none
  | some f, none => some f
  | none, some l => some l
  | some f, some l => some (f ++ " " ++ l)

/-! Theorems for the claims. -/

/-- C1: with signature verification enabled, every structured token whose
signature is invalid, whose issuer claim is not exactly the configured
issuer string (scheme or trailing-slash differences included), or whose
expiry has passed makes `verifyToken` fail with the wrapped verification
error — it never returns claims. -/
theorem C1_enabled_rejects_bad_token (env : JoseEnv) (cfg : ClerkOAuthConfig)
    (token : String) (claims : RawClaims)
    (hv : cfg.verifyJwt ≠ some false)
    (hdec : env.decodeBase64UrlJson ((splitDot token).getD 1 "") = some claims)
    (hbad : env.sigValid token = false
          ∨ claims.iss ≠ some (issuerOf cfg)
          ∨ ∃ e, claims.exp = some e ∧ e ≤ env.now) :
    ∃ msg, (verifyToken env cfg token).result
      = .err ("Clerk JWT verification failed: " ++ msg) := by
  have hfull : verifyToken env cfg token = verifyFull env cfg token := by
    unfold verifyToken
    exact if_neg hv
  have hjv : ∃ m, jwtVerify env token (issuerOf cfg) = .error m := by
    unfold jwtVerify
    by_cases h3 : (splitDot token).length = 3
    · simp only [h3, ne_eq, not_true_eq_false, if_false, hdec]
      by_cases hs : env.sigValid token = false
      · exact ⟨"JWSSignatureVerificationFailed: signature verification failed",
          by simp [hs]⟩
      · have hs' : env.sigValid token = true := by
          revert hs
          cases env.sigValid token <;> simp
        by_cases hi : claims.iss = some (issuerOf cfg)
        · rcases hbad with hb | hb | hb
          · exact absurd hb hs
          · exact absurd hi hb
          · obtain ⟨e, he, hle⟩ := hb
            exact ⟨"JWTExpired: exp claim timestamp check failed",
              by simp [hs', hi, he, hle]⟩
        · exact ⟨"JWTClaimValidationFailed: unexpected iss claim value",
            by simp [hs', hi]⟩
    · exact ⟨"JWSInvalid: Invalid Compact JWS", by simp [h3]⟩
  obtain ⟨m, hm⟩ := hjv
  refine ⟨m, ?_⟩
  rw [hfull]
  unfold verifyFull
  rw [hm]

/-- Witness for C1 at a token whose issuer claim carries a trailing
slash the configured issuer lacks. -/
theorem C1_enabled_rejects_bad_token_witness :
    ∃ msg, (verifyToken envFix cfgEnabled "a.payload.c").result
      = .err ("Clerk JWT verification failed: " ++ msg) :=
  C1_enabled_rejects_bad_token envFix cfgEnabled "a.payload.c" claimsBadIss
    (by decide) (by decide) (Or.inr (Or.inl (by decide)))

/-- C3: whenever the verify-signatures toggle is not explicitly set to
false — a fresh configuration where it is unset included — `verifyToken`
never takes the decode-without-verification branch: it behaves exactly
as the full-verification branch and never emits the downgrade warning. -/
theorem C3_default_always_verifies (env : JoseEnv) (cfg : ClerkOAuthConfig)
    (token : String) (h : cfg.verifyJwt ≠ some false) :
    verifyToken env cfg token = verifyFull env cfg token ∧
    (verifyToken env cfg token).warned = false := by
  have hv : verifyToken env cfg token = verifyFull env cfg token := by
    unfold verifyToken
    exact if_neg h
  refine ⟨hv, ?_⟩
  rw [hv]
  unfold verifyFull
  cases jwtVerify env token (issuerOf cfg) <;> rfl

/-- Witness for C3 at a fresh configuration with the toggle unset. -/
theorem C3_default_always_verifies_witness :
    verifyToken envFix cfgFresh "h.p.s" = verifyFull envFix cfgFresh "h.p.s" ∧
    (verifyToken envFix cfgFresh "h.p.s").warned = false :=
  C3_default_always_verifies envFix cfgFresh "h.p.s" (by decide)

/-- C4: with verification explicitly disabled, `verifyToken` still
rejects every token without exactly three dot-separated segments and
every token whose payload segment does not decode; every well-formed
token yields its decoded payload as claims; no branch touches the
network and the warning fires on every invocation in this mode. -/
theorem C4_disabled_mode_behavior (env : JoseEnv) (cfg : ClerkOAuthConfig)
    (token : String) (h : cfg.verifyJwt = some false) :
    (verifyToken env cfg token).warned = true ∧
    (verifyToken env cfg token).network = false ∧
    ((splitDot token).length ≠ 3 →
      (verifyToken env cfg token).result = .err "Invalid JWT format") ∧
    ((splitDot token).length = 3 →
      env.decodeBase64UrlJson ((splitDot token).getD 1 "") = none →
      ∃ m, (verifyToken env cfg token).result = .err m) ∧
    (∀ p, (splitDot token).length = 3 →
      env.decodeBase64UrlJson ((splitDot token).getD 1 "") = some p →
      (verifyToken env cfg token).result = .ok p) := by
  have hv : verifyToken env cfg token = decodeUnverified env token := by
    unfold verifyToken
    exact if_pos h
  have hwn : (decodeUnverified env token).warned = true ∧
      (decodeUnverified env token).network = false := by
    unfold decodeUnverified
    by_cases h3 : (splitDot token).length = 3
    · simp only [h3, ne_eq, not_true_eq_false, if_false]
      cases hd : env.decodeBase64UrlJson ((splitDot token).getD 1 "") with
      | none => simp [hd]
      | some q => simp [hd]
    · simp [h3]
  have hmal : (splitDot token).length ≠ 3 →
      (decodeUnverified env token).result = .err "Invalid JWT format" := by
    intro hc
    unfold decodeUnverified
    simp only [ne_eq, hc, not_false_eq_true, if_true]
  have hnone : (splitDot token).length = 3 →
      env.decodeBase64UrlJson ((splitDot token).getD 1 "") = none →
      ∃ m, (decodeUnverified env token).result = .err m := by
    intro h3 hn
    unfold decodeUnverified
    simp only [h3, ne_eq, not_true_eq_false, if_false, hn]
    exact ⟨"SyntaxError: Unexpected token in JSON", rfl⟩
  have hsome : ∀ p, (splitDot token).length = 3 →
      env.decodeBase64UrlJson ((splitDot token).getD 1 "") = some p →
      (decodeUnverified env token).result = .ok p := by
    intro p h3 hp
    unfold decodeUnverified
    simp only [h3, ne_eq, not_true_eq_false, if_false, hp]
  rw [hv]
  exact ⟨hwn.1, hwn.2, hmal, hnone, hsome⟩

/-- Witness for C4 at a disabled configuration and a well-formed
three-segment token whose payload decodes. -/
theorem C4_disabled_mode_behavior_witness :
    (verifyToken envFix cfgDisabled "a.p.c").warned = true ∧
    (verifyToken envFix cfgDisabled "a.p.c").network = false ∧
    (verifyToken envFix cfgDisabled "a.p.c").result = .ok scenarioClaims := by
  refine ⟨(C4_disabled_mode_behavior envFix cfgDisabled "a.p.c" rfl).1,
    (C4_disabled_mode_behavior envFix cfgDisabled "a.p.c" rfl).2.1, ?_⟩
  exact (C4_disabled_mode_behavior envFix cfgDisabled "a.p.c" rfl).2.2.2.2
    scenarioClaims (by decide) (by decide)

/-- C2 counterexample: the claim that the dual-path dispatch is selected
by the three-dot-segment structural shape is false on the code — the
single-segment token "abc" is opaque by shape (so the claimed rule sends
it to the userinfo call), yet the handler, which branches on the `oat_`
textual sigil, performs the administrative lookup for it. -/
theorem C2_shape_dispatch_counterexample :
    ctxPlain.accessToken = "abc" ∧
    claimedShapeDispatch "abc" = .userinfo ∧
    codeDispatch "abc" = .admin ∧
    (getClerkUserProfile envH ctxPlain).2
      = [adminUserCall (some "user_1") "sk_test_123"] := by decide

/-- C2 amended: with domain and secret credential configured, the
handler performs exactly one remote call, selected purely by the token
string itself — by whether it starts with the `oat_` sigil (sigil →
direct userinfo call with the token as bearer; otherwise →
administrative lookup by the context's user id) — never by a
caller-supplied hint. -/
theorem C2_dispatch_by_token_sigil (env : HandlerEnv) (ctx : ToolCtx)
    (hd : truthyStr env.clerkDomain = true)
    (hs : truthyStr env.clerkSecretKey = true) :
    (getClerkUserProfile env ctx).2 =
      [match codeDispatch ctx.accessToken with
       | .userinfo => userinfoCall (env.clerkDomain.getD "") ctx.accessToken
       | .admin => adminUserCall ctx.userId (env.clerkSecretKey.getD "")] := by
  by_cases ho : startsWithOat ctx.accessToken = true
  · cases hok : (env.fetchUserinfo
        (userinfoCall (env.clerkDomain.getD "") ctx.accessToken)).ok <;>
      simp [getClerkUserProfile, codeDispatch, hd, ho, hok]
  · have ho' : startsWithOat ctx.accessToken = false := by
      revert ho
      cases startsWithOat ctx.accessToken <;> simp
    cases hok : (env.fetchAdmin
        (adminUserCall ctx.userId (env.clerkSecretKey.getD ""))).ok <;>
      simp [getClerkUserProfile, codeDispatch, hd, ho', hs, hok]

/-- Witness for the amended C2 at an `oat_` token: the single call is
the direct userinfo call. -/
theorem C2_dispatch_by_token_sigil_witness :
    (getClerkUserProfile envH ctxOpaque).2
      = [userinfoCall "example.clerk.accounts.dev" "oat_abc"] := by
  have h := C2_dispatch_by_token_sigil envH ctxOpaque (by decide) (by decide)
  exact h.trans (by decide)

/-- C5 counterexample: a structured token that passes full verification
(valid signature, exact issuer, unexpired) but carries no `sub` claim
yields a payload whose normalization has an absent user id, so the
claimed invariant that the user id is always populated after successful
verification is false on the code. -/
theorem C5_missing_sub_counterexample :
    (verifyToken envFix cfgEnabled "h.e.s").result = .ok noSubClaims ∧
    noSubClaims.sub = none ∧
    (getUserInfo noSubClaims).userId = none := by decide

/-- C5 amended: normalization copies the payload's `sub` claim into the
user id unchecked, so the user id is populated exactly when the verified
payload carries a `sub` claim; verification itself does not require
`sub`. -/
theorem C5_userId_is_sub (p : RawClaims) (h : p.sub.isSome = true) :
    (getUserInfo p).userId = p.sub ∧
    ((getUserInfo p).userId).isSome = true := by
  constructor
  · rfl
  · show p.sub.isSome = true
    exact h

/-- Witness for the amended C5 at the specification's scenario payload. -/
theorem C5_userId_is_sub_witness :
    (getUserInfo scenarioClaims).userId = scenarioClaims.sub ∧
    ((getUserInfo scenarioClaims).userId).isSome = true :=
  C5_userId_is_sub scenarioClaims (by decide)

/-- C6: `getUserInfo` is a pure total Lean function (it returns a
`UserInfo` record, never an error, for every `RawClaims` input), and
every absent optional input field maps to an absent or empty output
field rather than a failure. -/
theorem C6_normalizer_total (p : RawClaims) :
    (p.email = none → (getUserInfo p).email = none) ∧
    ((p.first_name = none ∧ p.last_name = none) →
      (getUserInfo p).name = none) ∧
    ((p.image_url = none ∧ p.picture = none) →
      (getUserInfo p).picture = none) ∧
    (p.org_id = none → (getUserInfo p).org_id = none) ∧
    (p.org_role = none → (getUserInfo p).org_role = none) ∧
    (p.org_permissions = none → (getUserInfo p).org_permissions = []) ∧
    ((p.org_role = none ∧ p.roles = none) → (getUserInfo p).roles = []) ∧
    ((p.org_permissions = none ∧ p.permissions = none) →
      (getUserInfo p).permissions = []) := by
  refine ⟨fun h => ?_, fun h => ?_, fun h => ?_, fun h => ?_, fun h => ?_,
    fun h => ?_, fun h => ?_, fun h => ?_⟩
  · simpa [getUserInfo] using h
  · simp [getUserInfo, truthyStr, h.1, h.2]
  · simp [getUserInfo, truthyStr, h.1, h.2]
  · simpa [getUserInfo] using h
  · simpa [getUserInfo] using h
  · simp [getUserInfo, h]
  · simp [getUserInfo, truthyStr, h.1, h.2]
  · simp [getUserInfo, truthyStr, h.1, h.2]

/-- Witness for C6 at the all-absent payload. -/
theorem C6_normalizer_total_witness :
    (getUserInfo emptyClaims).email = none ∧
    (getUserInfo emptyClaims).name = none ∧
    (getUserInfo emptyClaims).picture = none ∧
    (getUserInfo emptyClaims).org_id = none ∧
    (getUserInfo emptyClaims).org_role = none ∧
    (getUserInfo emptyClaims).org_permissions = [] ∧
    (getUserInfo emptyClaims).roles = [] ∧
    (getUserInfo emptyClaims).permissions = [] :=
  ⟨(C6_normalizer_total emptyClaims).1 rfl,
   (C6_normalizer_total emptyClaims).2.1 ⟨rfl, rfl⟩,
   (C6_normalizer_total emptyClaims).2.2.1 ⟨rfl, rfl⟩,
   (C6_normalizer_total emptyClaims).2.2.2.1 rfl,
   (C6_normalizer_total emptyClaims).2.2.2.2.1 rfl,
   (C6_normalizer_total emptyClaims).2.2.2.2.2.1 rfl,
   (C6_normalizer_total emptyClaims).2.2.2.2.2.2.1 ⟨rfl, rfl⟩,
   (C6_normalizer_total emptyClaims).2.2.2.2.2.2.2 ⟨rfl, rfl⟩⟩

/-- C7 counterexample: in a payload where both organization-scoped and
generic role/permission claims exist — `org_role` the empty string and
`org_permissions` the empty list — normalization reads the generic
claims, so the claimed unconditional precedence of organization-scoped
claims is false on the code. -/
theorem C7_org_precedence_counterexample :
    bothKindsClaims.org_role = some "" ∧
    bothKindsClaims.roles = some ["generic_role"] ∧
    bothKindsClaims.org_permissions = some [] ∧
    bothKindsClaims.permissions = some ["generic_perm"] ∧
    (getUserInfo bothKindsClaims).roles = ["generic_role"] ∧
    (getUserInfo bothKindsClaims).permissions = ["generic_perm"] := by decide

/-- C7 amended: each organization-scoped claim independently takes
precedence over its generic counterpart exactly when it is truthy — a
non-empty `org_role` string yields that single-element role list, a
non-empty `org_permissions` list is returned as the permission list —
while a falsy or absent organization-scoped claim (`org_role` absent or
the empty string; `org_permissions` absent or the empty list) falls back
to the generic claim when that is present and to the empty sequence when
it is not; the lists are therefore never absent. -/
theorem C7_org_precedence_truthy (p : RawClaims) :
    (∀ r, p.org_role = some r → r ≠ "" → (getUserInfo p).roles = [r]) ∧
    (∀ rs, truthyStr p.org_role = false → p.roles = some rs →
      (getUserInfo p).roles = rs) ∧
    (truthyStr p.org_role = false → p.roles = none →
      (getUserInfo p).roles = []) ∧
    (∀ ps, p.org_permissions = some ps → ps ≠ [] →
      (getUserInfo p).permissions = ps) ∧
    (∀ qs, (p.org_permissions = none ∨ p.org_permissions = some []) →
      p.permissions = some qs → (getUserInfo p).permissions = qs) ∧
    ((p.org_permissions = none ∨ p.org_permissions = some []) →
      p.permissions = none → (getUserInfo p).permissions = []) := by
  refine ⟨?_, ?_, ?_, ?_, ?_, ?_⟩
  · intro r hr hrne
    have h1 : truthyStr (some r) = true := by simp [truthyStr, hrne]
    simp [getUserInfo, hr, h1]
  · intro rs hf hr
    simp [getUserInfo, hf, hr]
  · intro hf hr
    simp [getUserInfo, hf, hr]
  · intro ps hp hpne
    have h2 : 0 < ps.length := List.length_pos.mpr hpne
    simp [getUserInfo, hp, h2]
  · intro qs hor hq
    rcases hor with h | h <;> simp [getUserInfo, h, hq]
  · intro hor hq
    rcases hor with h | h <;> simp [getUserInfo, h, hq]

/-- Witness for the amended C7: truthy organization-scoped claims win at
the scenario payload, and the empty `org_permissions` of the
mixed payload falls back to the generic permission claim. -/
theorem C7_org_precedence_truthy_witness :
    (getUserInfo scenarioClaims).roles = ["admin"] ∧
    (getUserInfo scenarioClaims).permissions = ["read"] ∧
    (getUserInfo bothKindsClaims).permissions = ["generic_perm"] :=
  ⟨(C7_org_precedence_truthy scenarioClaims).1 "admin" rfl (by decide),
   (C7_org_precedence_truthy scenarioClaims).2.2.2.1 ["read"] rfl
     (by decide),
   (C7_org_precedence_truthy bothKindsClaims).2.2.2.2.1 ["generic_perm"]
     (Or.inr rfl) rfl⟩

/-- C8 counterexample: for the payload with an empty-string first name
and last name "Doe", the claimed rule (space-separated concatenation
omitting only absent parts) yields " Doe", but the code, which drops
falsy parts via `filter(Boolean)`, yields "Doe"; so the universally
quantified claim is false on the code at this input. -/
theorem C8_display_name_counterexample :
    emptyFirstNameClaims.first_name = some "" ∧
    emptyFirstNameClaims.last_name = some "Doe" ∧
    claimedDisplayName emptyFirstNameClaims.first_name
      emptyFirstNameClaims.last_name = some " Doe" ∧
    (getUserInfo emptyFirstNameClaims).name = some "Doe" ∧
    (getUserInfo emptyFirstNameClaims).name ≠
      claimedDisplayName emptyFirstNameClaims.first_name
        emptyFirstNameClaims.last_name := by decide

/-- C8 amended: the display name is the space-separated concatenation of
the truthy (present and non-empty) first-name and last-name claims,
omitting absent or empty parts and entirely absent when no part is
truthy; the specification's concrete scenario normalizes exactly as
stated. -/
theorem C8_display_name_truthy (p : RawClaims) :
    ((truthyStr p.first_name = false ∧ truthyStr p.last_name = false) →
      (getUserInfo p).name = none) ∧
    (∀ f l, p.first_name = some f → f ≠ "" → p.last_name = some l →
      l ≠ "" → (getUserInfo p).name = some (f ++ " " ++ l)) ∧
    (∀ f, p.first_name = some f → f ≠ "" → truthyStr p.last_name = false →
      (getUserInfo p).name = some f) ∧
    (∀ l, p.last_name = some l → l ≠ "" → truthyStr p.first_name = false →
      (getUserInfo p).name = some l) ∧
    ((getUserInfo scenarioClaims).userId = some "user_2" ∧
     (getUserInfo scenarioClaims).name = some "Jane Doe" ∧
     (getUserInfo scenarioClaims).org_id = some "org_9" ∧
     (getUserInfo scenarioClaims).org_role = some "admin" ∧
     (getUserInfo scenarioClaims).permissions = ["read"]) := by
  refine ⟨?_, ?_, ?_, ?_, by decide⟩
  · intro h
    simp [getUserInfo, h.1, h.2]
  · intro f l hf hfne hl hlne
    simp [getUserInfo, truthyStr, hf, hl, hfne, hlne, joinWith]
  · intro f hf hfne hl
    cases hln : p.last_name with
    | none => simp [getUserInfo, truthyStr, hf, hln, hfne, joinWith]
    | some l =>
      rw [hln] at hl
      have hle : l = "" := by
        revert hl
        simp [truthyStr]
      subst hle
      simp [getUserInfo, truthyStr, hf, hln, hfne, joinWith]
  · intro l hl hlne hf
    cases hfn : p.first_name with
    | none => simp [getUserInfo, truthyStr, hl, hfn, hlne, joinWith]
    | some f =>
      rw [hfn] at hf
      have hfe : f = "" := by
        revert hf
        simp [truthyStr]
      subst hfe
      simp [getUserInfo, truthyStr, hl, hfn, hlne, joinWith]

/-- Witness for the amended C8 at the scenario payload with both names
truthy. -/
theorem C8_display_name_truthy_witness :
    (getUserInfo scenarioClaims).name = some ("Jane" ++ " " ++ "Doe") :=
  (C8_display_name_truthy scenarioClaims).2.1 "Jane" "Doe" rfl (by decide)
    rfl (by decide)

/-- C9: an administrative profile lookup requested while the secret
credential is unset (or empty, which the source's falsiness check also
rejects) fails with the descriptive configuration error message and
performs no fetch call at all. -/
theorem C9_missing_secret_no_fetch (env : HandlerEnv) (ctx : ToolCtx)
    (hd : truthyStr env.clerkDomain = true)
    (hop : startsWithOat ctx.accessToken = false)
    (hsk : truthyStr env.clerkSecretKey = false) :
    (getClerkUserProfile env ctx).1 = .err secretKeyMissingMessage ∧
    (getClerkUserProfile env ctx).2 = [] := by
  constructor <;> simp [getClerkUserProfile, hd, hop, hsk]

/-- Witness for C9 at a structured token and an environment without the
secret credential. -/
theorem C9_missing_secret_no_fetch_witness :
    (getClerkUserProfile envHNoSecret ctxJwt).1 = .err secretKeyMissingMessage ∧
    (getClerkUserProfile envHNoSecret ctxJwt).2 = [] :=
  C9_missing_secret_no_fetch envHNoSecret ctxJwt (by decide) (by decide)
    (by decide)

/-- C10: whenever a userinfo or administrative profile fetch reaches the
endpoint but the response is non-success, the handler returns a
structured error result (a value, not a raised fault) whose message
carries the status code and status text, so the request does not
crash. -/
theorem C10_non_success_structured_error (env : HandlerEnv) (ctx : ToolCtx)
    (sk : String) (hd : truthyStr env.clerkDomain = true) :
    (startsWithOat ctx.accessToken = true →
      (env.fetchUserinfo
        (userinfoCall (env.clerkDomain.getD "") ctx.accessToken)).ok = false →
      (getClerkUserProfile env ctx).1 =
        .err ("Clerk userinfo failed: "
          ++ toString (env.fetchUserinfo
              (userinfoCall (env.clerkDomain.getD "") ctx.accessToken)).status
          ++ " "
          ++ (env.fetchUserinfo
              (userinfoCall (env.clerkDomain.getD "")
                ctx.accessToken)).statusText)) ∧
    (startsWithOat ctx.accessToken = false → env.clerkSecretKey = some sk →
      sk ≠ "" →
      (env.fetchAdmin (adminUserCall ctx.userId sk)).ok = false →
      (getClerkUserProfile env ctx).1 =
        .err ("Clerk API request failed: "
          ++ toString (env.fetchAdmin (adminUserCall ctx.userId sk)).status
          ++ " "
          ++ (env.fetchAdmin (adminUserCall ctx.userId sk)).statusText)) := by
  constructor
  · intro ho hok
    simp [getClerkUserProfile, hd, ho, hok]
  · intro ho hsk hne hok
    have ht : truthyStr (some sk) = true := by
      simp [truthyStr, hne]
    simp [getClerkUserProfile, hd, ho, ht, hsk, hok]

/-- Witness for C10: a 401 userinfo response yields the structured error
result carrying status 401. -/
theorem C10_non_success_structured_error_witness :
    (getClerkUserProfile envH401 ctxOpaque).1
      = .err "Clerk userinfo failed: 401 Unauthorized" := by
  have h := (C10_non_success_structured_error envH401 ctxOpaque "sk"
    (by decide)).1 (by decide) (by decide)
  exact h.trans (by decide)

end ClerkSpec
